import Mathlib

/-!
Shallow embedding of the SQL analysis logic of
`Cluster_Optimization_Analysis.py` and `Resource_Utilization_Analysis.py`.

Conventions: SQL timestamps and dates are modelled as integers on a common
axis (the unit is irrelevant to the properties proved), SQL numeric values
(DOUBLE / DECIMAL) as rationals, nullable columns as `Option`.  Each
definition names the query and column it embeds.
-/

/-- A row of `system.billing.usage`, restricted to the fields read by the
`cluster_costs` common table expressions. -/
structure UsageRecord where
  cluster_id : String
  sku_name : String
  usage_quantity : ℚ
  usage_start_time : ℤ
deriving DecidableEq, Repr

/-- A row of `system.billing.list_prices`; `price` is `pricing.default`. -/
structure PriceEntry where
  sku_name : String
  price : ℚ
  price_start_time : ℤ
  price_end_time : Option ℤ
deriving DecidableEq, Repr

/-- The LEFT JOIN condition of every `cluster_costs` CTE:
`u.sku_name = lp.sku_name AND u.usage_start_time >= lp.price_start_time AND
(lp.price_end_time IS NULL OR u.usage_start_time < lp.price_end_time)`. -/
def priceMatches (u : UsageRecord) (p : PriceEntry) : Bool :=
  u.sku_name == p.sku_name
    && decide (p.price_start_time ≤ u.usage_start_time)
    && (match p.price_end_time with
        | none => true
        | some e => decide (u.usage_start_time < e))

/-- Cost contributed by one usage row after the LEFT JOIN to `list_prices`:
each matching price entry yields one joined row contributing
`usage_quantity * COALESCE(price, 0)`; when no price entry matches the row
survives once with a NULL price, contributing `usage_quantity * 0`. -/
def usageRowCost (prices : List PriceEntry) (u : UsageRecord) : ℚ :=
  match prices.filter (fun p => priceMatches u p) with
  | [] => u.usage_quantity * 0
  | ps => (ps.map (fun p => u.usage_quantity * p.price)).sum

/-- DBU quantity contributed by one usage row after the LEFT JOIN (the join
keeps one copy of the row per matching price entry; with no match the row
survives exactly once). -/
def usageRowDbus (prices : List PriceEntry) (u : UsageRecord) : ℚ :=
  match prices.filter (fun p => priceMatches u p) with
  | [] => u.usage_quantity
  | ps => (ps.map (fun _ => u.usage_quantity)).sum

/-- WHERE clause and GROUP BY key of `cluster_costs`: the usage row lies in
the lookback window (`usage_start_time >= date_sub(current_date,
lookback_days)`, whose start is `winStart`) and belongs to cluster `cid`
(`usage_metadata.cluster_id IS NOT NULL` is subsumed by equality with the
group key). -/
def usageInGroup (cid : String) (winStart : ℤ) (u : UsageRecord) : Bool :=
  u.cluster_id == cid && decide (winStart ≤ u.usage_start_time)

/-- `SUM(u.usage_quantity * COALESCE(lp.pricing.default, 0))` of
`cluster_costs` for the group of cluster `cid` (the value inside the display
`ROUND(..., 2)`). -/
def totalCostUsd (prices : List PriceEntry) (usage : List UsageRecord)
    (cid : String) (winStart : ℤ) : ℚ :=
  ((usage.filter (usageInGroup cid winStart)).map (usageRowCost prices)).sum

/-- `SUM(u.usage_quantity)` of `cluster_costs` for the group of cluster
`cid`. -/
def totalDbus (prices : List PriceEntry) (usage : List UsageRecord)
    (cid : String) (winStart : ℤ) : ℚ :=
  ((usage.filter (usageInGroup cid winStart)).map (usageRowDbus prices)).sum

/-- Per-cluster averaged utilization statistics, as produced by the
`cluster_stats` CTE of `resource_summary_query` in
`Resource_Utilization_Analysis.py`. -/
structure UtilStats where
  avg_cpu_percent : ℚ
  avg_io_wait_percent : ℚ
  avg_memory_percent : ℚ
  avg_swap_percent : ℚ
deriving DecidableEq, Repr

/-- The `bottleneck_type` CASE expression of `resource_summary_query`
(`Resource_Utilization_Analysis.py`, lines 537-542). -/
def bottleneck_type (s : UtilStats) : String :=
  if 5 ≤ s.avg_swap_percent ∨ 80 ≤ s.avg_memory_percent then "Memory-bound"
  else if 20 ≤ s.avg_io_wait_percent then "I/O-bound"
  else if 50 ≤ s.avg_cpu_percent then "CPU-bound"
  else "Balanced/Underutilized"

/-- C3: the resource-bottleneck classifier assigns every cluster with
utilization data exactly one of the four categories by first-match-wins
evaluation — memory (swap ≥ 5 or memory ≥ 80) before IO (≥ 20) before CPU
(≥ 50), else balanced — so the categories are mutually exclusive and
jointly exhaustive. -/
theorem bottleneck_classification_first_match (s : UtilStats) :
    (bottleneck_type s = "Memory-bound" ↔
      (5 ≤ s.avg_swap_percent ∨ 80 ≤ s.avg_memory_percent)) ∧
    (bottleneck_type s = "I/O-bound" ↔
      (¬(5 ≤ s.avg_swap_percent ∨ 80 ≤ s.avg_memory_percent) ∧
        20 ≤ s.avg_io_wait_percent)) ∧
    (bottleneck_type s = "CPU-bound" ↔
      (¬(5 ≤ s.avg_swap_percent ∨ 80 ≤ s.avg_memory_percent) ∧
        ¬(20 ≤ s.avg_io_wait_percent) ∧ 50 ≤ s.avg_cpu_percent)) ∧
    (bottleneck_type s = "Balanced/Underutilized" ↔
      (¬(5 ≤ s.avg_swap_percent ∨ 80 ≤ s.avg_memory_percent) ∧
        ¬(20 ≤ s.avg_io_wait_percent) ∧ ¬(50 ≤ s.avg_cpu_percent))) := by
  unfold bottleneck_type
  split_ifs with h1 h2 h3 <;> simp_all

/-- C1: for a usage record of cluster `cid` inside the lookback window, the
cost aggregation contributes `usage_quantity * price` when exactly one price
entry matches its SKU and timestamp, and exactly `0` when none matches —
while in either case the record's `usage_quantity` still counts toward the
per-cluster DBU total. -/
theorem cluster_costs_attribution (prices : List PriceEntry)
    (usage : List UsageRecord) (u : UsageRecord) (cid : String)
    (winStart : ℤ) (hcid : u.cluster_id = cid)
    (hwin : winStart ≤ u.usage_start_time) :
    (∀ p : PriceEntry, prices.filter (fun q => priceMatches u q) = [p] →
      totalCostUsd prices (u :: usage) cid winStart
        = u.usage_quantity * p.price + totalCostUsd prices usage cid winStart
      ∧ totalDbus prices (u :: usage) cid winStart
        = u.usage_quantity + totalDbus prices usage cid winStart) ∧
    (prices.filter (fun q => priceMatches u q) = [] →
      totalCostUsd prices (u :: usage) cid winStart
        = 0 + totalCostUsd prices usage cid winStart
      ∧ totalDbus prices (u :: usage) cid winStart
        = u.usage_quantity + totalDbus prices usage cid winStart) := by
  have hg : usageInGroup cid winStart u = true := by
    simp [usageInGroup, hcid, hwin]
  constructor
  · intro p hp
    constructor
    · simp [totalCostUsd, List.filter_cons, hg, usageRowCost, hp]
    · simp [totalDbus, List.filter_cons, hg, usageRowDbus, hp]
  · intro hp
    constructor
    · simp [totalCostUsd, List.filter_cons, hg, usageRowCost, hp]
    · simp [totalDbus, List.filter_cons, hg, usageRowDbus, hp]

/-- Closed instance of `cluster_costs_attribution`: one usage row of 10 DBUs
matched by a single price entry at rate 2 contributes cost 20 and DBUs 10. -/
theorem cluster_costs_attribution_witness :
    totalCostUsd [⟨"SKU_A", 2, 50, none⟩] [⟨"c1", "SKU_A", 10, 100⟩] "c1" 0
      = (10 : ℚ) * 2 + totalCostUsd [⟨"SKU_A", 2, 50, none⟩] [] "c1" 0
    ∧ totalDbus [⟨"SKU_A", 2, 50, none⟩] [⟨"c1", "SKU_A", 10, 100⟩] "c1" 0
      = (10 : ℚ) + totalDbus [⟨"SKU_A", 2, 50, none⟩] [] "c1" 0 :=
  (cluster_costs_attribution [⟨"SKU_A", 2, 50, none⟩] []
      ⟨"c1", "SKU_A", 10, 100⟩ "c1" 0 rfl (by decide)).1
    ⟨"SKU_A", 2, 50, none⟩ (by decide)

/-- The per-series generation thresholds collected from the notebook
widgets (`vm_threshold_D` … `vm_threshold_default`). -/
structure VmThresholds where
  d_series : ℤ
  e_series : ℤ
  f_series : ℤ
  l_series : ℤ
  m_series : ℤ
  n_series : ℤ
  default_series : ℤ
deriving DecidableEq, Repr

/-- SQL `s LIKE 'c%'` for a single-character pattern head: the first
character of `s` is `c`. -/
def likeHead (s : String) (c : Char) : Bool :=
  match s.data with
  | [] => false
  | a :: _ => a == c

/-- The threshold CASE of `old_vm_query` (`clusters_with_thresholds`):
`WHEN series LIKE 'D%' THEN vm_threshold_D ... ELSE vm_threshold_default`. -/
def seriesThreshold (t : VmThresholds) (series : String) : ℤ :=
  if likeHead series 'D' then t.d_series
  else if likeHead series 'E' then t.e_series
  else if likeHead series 'F' then t.f_series
  else if likeHead series 'L' then t.l_series
  else if likeHead series 'M' then t.m_series
  else if likeHead series 'N' then t.n_series
  else t.default_series

/-- Per-role VM information of `clusters_with_vm_info`: `series` is
`REGEXP_EXTRACT(node_type, 'Standard_([A-Z]+)', 1)` and `gen` is
`TRY_CAST(REGEXP_EXTRACT(node_type, '_v([0-9]+)', 1) AS INT)`, NULL when
the pattern does not match or the cast fails. -/
structure VmNodeInfo where
  series : String
  gen : Option ℤ
deriving DecidableEq, Repr

/-- The violation condition of `old_vm_query` (both the `vm_status` CASE and
the WHERE clause): `COALESCE(driver_gen, 99) < driver_threshold OR
COALESCE(worker_gen, 99) < worker_threshold`. -/
def vmBelowThreshold (t : VmThresholds) (driver worker : VmNodeInfo) : Bool :=
  decide (driver.gen.getD 99 < seriesThreshold t driver.series)
    || decide (worker.gen.getD 99 < seriesThreshold t worker.series)

/-- The `vm_status` column of `old_vm_query` (lines 499-504). -/
def vm_status (t : VmThresholds) (driver worker : VmNodeInfo) : String :=
  if vmBelowThreshold t driver worker then "🔴 Below Recommended"
  else "🟢 Meets Threshold"

/-- The display columns `driver_vm_generation` / `worker_vm_generation`:
`COALESCE(CAST(gen AS STRING), 'N/A')`. -/
def vmGenerationDisplay (g : Option ℤ) : String :=
  match g with
  | some n => toString n
  | none => "N/A"

/-- C2: the below-threshold flag holds iff driver generation < driver-series
threshold OR worker generation < worker-series threshold, each role against
its own series threshold; a missing generation is coalesced to 99, so (for
a threshold of at most 99, which covers every widget-selectable value) it
never triggers a violation for its role, while the display column renders
it as N/A. -/
theorem vm_generation_violation (t : VmThresholds) (driver worker : VmNodeInfo) :
    (vmBelowThreshold t driver worker = true ↔
      (driver.gen.getD 99 < seriesThreshold t driver.series ∨
        worker.gen.getD 99 < seriesThreshold t worker.series)) ∧
    (driver.gen = none → seriesThreshold t driver.series ≤ 99 →
      (vmBelowThreshold t driver worker = true ↔
        worker.gen.getD 99 < seriesThreshold t worker.series)) ∧
    (worker.gen = none → seriesThreshold t worker.series ≤ 99 →
      (vmBelowThreshold t driver worker = true ↔
        driver.gen.getD 99 < seriesThreshold t driver.series)) ∧
    (driver.gen = none → vmGenerationDisplay driver.gen = "N/A") := by
  refine ⟨?_, ?_, ?_, ?_⟩
  · simp [vmBelowThreshold]
  · intro hnone hle
    simp [vmBelowThreshold, hnone]
    omega
  · intro hnone hle
    simp [vmBelowThreshold, hnone]
    omega
  · intro hnone
    simp [vmGenerationDisplay, hnone]

/-- Closed instance of `vm_generation_violation` at the widget default
thresholds: a cluster with an unparseable driver generation and a compliant
worker (E-series v5 against threshold 5) is not flagged, and the driver
generation is displayed as N/A. -/
theorem vm_generation_violation_witness :
    (vmBelowThreshold ⟨5, 5, 2, 3, 2, 1, 5⟩ ⟨"D", none⟩ ⟨"E", some 5⟩ = true ↔
      ((some (5 : ℤ)).getD 99 < seriesThreshold ⟨5, 5, 2, 3, 2, 1, 5⟩ "E")) ∧
    vmGenerationDisplay (VmNodeInfo.gen ⟨"D", none⟩) = "N/A" :=
  ⟨(vm_generation_violation ⟨5, 5, 2, 3, 2, 1, 5⟩ ⟨"D", none⟩ ⟨"E", some 5⟩).2.1
      rfl (by decide),
    (vm_generation_violation ⟨5, 5, 2, 3, 2, 1, 5⟩ ⟨"D", none⟩ ⟨"E", some 5⟩).2.2.2
      rfl⟩

/-- The `support_status` CASE of `outdated_dbr_query` (lines 300-306),
applied to the LEFT-JOINed schedule columns: `lts_version` is NULL exactly
when the extracted major.minor token has no schedule entry; in that case
`days_until_eos = DATEDIFF(DATE(end_of_support), current_date())` is NULL
as well, and every `days_until_eos` comparison of the CASE is UNKNOWN, so
evaluation falls through to the ELSE branch. -/
def support_status : Option String → Option ℤ → String
  | none, _ => "🔴 CRITICAL (Non-LTS)"
  | some _, none => "🟢 SUPPORTED"
  | some _, some d =>
    if d < 0 then "⛔ EXPIRED"
    else if d < 180 then "🔴 CRITICAL (<6 months)"
    else if d < 365 then "🟠 WARNING (<1 year)"
    else "🟢 SUPPORTED"

/-- C5: for a version matched in the support schedule the band follows
`days_until_eos` with strict upper bounds on the urgent side: < 0 expired,
< 180 critical, < 365 warning, else supported; at the boundaries 180 is
warning and 365 is supported. -/
theorem support_status_bands (v : String) (d : ℤ) :
    (support_status (some v) (some d) = "⛔ EXPIRED" ↔ d < 0) ∧
    (support_status (some v) (some d) = "🔴 CRITICAL (<6 months)" ↔
      (0 ≤ d ∧ d < 180)) ∧
    (support_status (some v) (some d) = "🟠 WARNING (<1 year)" ↔
      (180 ≤ d ∧ d < 365)) ∧
    (support_status (some v) (some d) = "🟢 SUPPORTED" ↔ 365 ≤ d) ∧
    support_status (some v) (some 180) = "🟠 WARNING (<1 year)" ∧
    support_status (some v) (some 365) = "🟢 SUPPORTED" := by
  refine ⟨?_, ?_, ?_, ?_, by norm_num [support_status], by norm_num [support_status]⟩ <;>
    · simp only [support_status]
      split_ifs with h0 h1 h2 <;> simp_all <;> omega

/-- The ORDER BY urgency key of `outdated_dbr_query` (lines 314-319):
`CASE WHEN lts_version IS NULL THEN -1 WHEN days_until_eos IS NULL THEN
9999 ELSE days_until_eos END`, sorted ascending. -/
def dbrUrgencyKey (lts_version : Option String)
    (days_until_eos : Option ℤ) : ℤ :=
  match lts_version with
  | none => -1
  | some _ =>
    match days_until_eos with
    | none => 9999
    | some d => d

/-- The full ORDER BY of `outdated_dbr_query`: row A is rendered before row
B iff its urgency key is smaller, or the keys tie and A's cost is larger
(`cc.total_cost_usd DESC` as the secondary key; both costs concrete, so
NULLS LAST does not arise). -/
def dbrReportBefore (ltsA : Option String) (daysA : Option ℤ) (costA : ℚ)
    (ltsB : Option String) (daysB : Option ℤ) (costB : ℚ) : Bool :=
  decide (dbrUrgencyKey ltsA daysA < dbrUrgencyKey ltsB daysB)
    || (dbrUrgencyKey ltsA daysA == dbrUrgencyKey ltsB daysB
        && decide (costB < costA))

/-- C4 counterexample: a matched version that expired 10 days ago
(`days_until_eos = -10`, key -10) is ordered BEFORE a non-LTS cluster
(key -1), even with zero cost against the non-LTS cluster's 500 — so
non-LTS is not ordered before every matched version. -/
theorem dbr_nonlts_not_always_first :
    dbrReportBefore (some "12.2") (some (-10)) 0 none none 500 = true ∧
    dbrReportBefore none none 500 (some "12.2") (some (-10)) 0 = false := by
  constructor <;> rfl

/-- C4 amended: a cluster with no schedule match is classified in the single
worst band (Non-LTS critical) and its urgency key -1 orders it before every
matched version with `days_until_eos ≥ 0` — in particular a $500 non-LTS
cluster precedes a $5000 cluster 10 days from expiry — and before a matched
row with NULL days (key 9999); but a matched version with
`days_until_eos < -1` (expired for more than a day) is ordered before the
non-LTS row. -/
theorem dbr_nonlts_sort_order (v : String) (d : ℤ) (costN costM : ℚ) :
    support_status none none = "🔴 CRITICAL (Non-LTS)" ∧
    (0 ≤ d →
      dbrReportBefore none none costN (some v) (some d) costM = true) ∧
    dbrReportBefore none none costN (some v) none costM = true ∧
    (d < -1 →
      dbrReportBefore (some v) (some d) costM none none costN = true) := by
  refine ⟨rfl, ?_, ?_, ?_⟩
  · intro hd
    simp [dbrReportBefore, dbrUrgencyKey]
    omega
  · simp [dbrReportBefore, dbrUrgencyKey]
  · intro hd
    simp [dbrReportBefore, dbrUrgencyKey]
    omega

/-- Closed instance of `dbr_nonlts_sort_order`: the claim's end-to-end
scenario — a $500 non-LTS cluster precedes a matched "13.3" cluster with 10
days to expiry and $5000 cost. -/
theorem dbr_nonlts_sort_order_witness :
    dbrReportBefore none none 500 (some "13.3") (some 10) 5000 = true :=
  (dbr_nonlts_sort_order "13.3" 10 500 5000).2.1 (by norm_num)

/-- SQL `ROUND(x, 2)` (half-up; for the nonnegative cost ratios produced
here `round` agrees with Spark's HALF_UP mode). -/
def round2 (q : ℚ) : ℚ := ((round (q * 100) : ℤ) : ℚ) / 100

/-- The `pct_of_total_cost` column common to `dbr_distribution_query`
(line 388), `resource_summary_query` (line 560) and the other summaries:
`ROUND(SUM(cost) * 100.0 / NULLIF(SUM(SUM(cost)) OVER (), 0), 2)`.
`costs` is the list of per-category summed costs of the one result set (so
`costs.sum` is the window-function grand total), `c` the category's own
summed cost; a NULL (grand total zero) propagates through the division and
the ROUND. -/
def pct_of_total_cost (costs : List ℚ) (c : ℚ) : Option ℚ :=
  if costs.sum = 0 then none else some (round2 (c * 100 / costs.sum))

/-- Sum of a list scaled pointwise on the right. -/
theorem list_sum_map_mul_right (l : List ℚ) (r : ℚ) :
    (l.map (fun c => c * r)).sum = l.sum * r := by
  induction l with
  | nil => simp
  | cons a tl ih => simp [ih, add_mul]

/-- C6: each category's percentage field is its cost times 100 over the
grand total of the same result set (rounded to 2 decimals); when the grand
total is nonzero the unrounded percentages over all rows sum to exactly
100, and when the grand total is zero every percentage field is NULL rather
than a division error. -/
theorem pct_of_total_cost_consistent (costs : List ℚ) :
    (costs.sum ≠ 0 →
      (costs.map (fun c => c * 100 / costs.sum)).sum = 100 ∧
      ∀ c : ℚ, pct_of_total_cost costs c
        = some (round2 (c * 100 / costs.sum))) ∧
    (costs.sum = 0 → ∀ c : ℚ, pct_of_total_cost costs c = none) := by
  constructor
  · intro h
    constructor
    · have hmap : (costs.map (fun c => c * 100 / costs.sum)).sum
          = costs.sum * (100 / costs.sum) := by
        have : (fun c : ℚ => c * 100 / costs.sum)
            = fun c : ℚ => c * (100 / costs.sum) := by
          funext c
          rw [mul_div_assoc]
        rw [this, list_sum_map_mul_right]
      rw [hmap, mul_comm, div_mul_cancel₀ _ h]
    · intro c
      simp [pct_of_total_cost, h]
  · intro h c
    simp [pct_of_total_cost, h]

/-- Closed instance of `pct_of_total_cost_consistent`: for category costs
30 and 70 the unrounded percentages sum to 100. -/
theorem pct_of_total_cost_consistent_witness :
    (([30, 70] : List ℚ).map
        (fun c => c * 100 / ([30, 70] : List ℚ).sum)).sum = 100 :=
  ((pct_of_total_cost_consistent [30, 70]).1 (by norm_num)).1

/-- The `sizing_status` CASE of `oversized_driver_query` (lines 649-653):
`WHEN nt.core_count > driver_cpu_threshold THEN 'vCPUs Too High' WHEN
nt.memory_mb / 1024 > driver_memory_gb_threshold THEN 'Memory Too High'
ELSE 'Appropriately Sized'`. -/
def sizing_status (core_count : ℤ) (memory_mb : ℚ)
    (cpuThreshold : ℤ) (memoryGbThreshold : ℚ) : String :=
  if (cpuThreshold : ℚ) < core_count then "🔴 vCPUs Too High"
  else if memoryGbThreshold < memory_mb / 1024 then "🟠 Memory Too High"
  else "🟢 Appropriately Sized"

/-- The WHERE condition of `oversized_driver_query` (line 667):
`nt.core_count > driver_cpu_threshold OR nt.memory_mb / 1024 >
driver_memory_gb_threshold`. -/
def oversizedDriverCondition (core_count : ℤ) (memory_mb : ℚ)
    (cpuThreshold : ℤ) (memoryGbThreshold : ℚ) : Bool :=
  decide ((cpuThreshold : ℚ) < core_count)
    || decide (memoryGbThreshold < memory_mb / 1024)

/-- C8: a cluster is in the oversized-driver result set iff its driver node
type exceeds the vCPU threshold OR its memory (MB / 1024) exceeds the
memory-GB threshold; and when both violations hold the reported status is
the vCPU label. -/
theorem oversized_driver_gating (core_count : ℤ) (memory_mb : ℚ)
    (cpuThreshold : ℤ) (memoryGbThreshold : ℚ) :
    (oversizedDriverCondition core_count memory_mb
        cpuThreshold memoryGbThreshold = true ↔
      ((cpuThreshold : ℚ) < core_count ∨
        memoryGbThreshold < memory_mb / 1024)) ∧
    ((cpuThreshold : ℚ) < core_count →
      memoryGbThreshold < memory_mb / 1024 →
      sizing_status core_count memory_mb cpuThreshold memoryGbThreshold
        = "🔴 vCPUs Too High") := by
  constructor
  · simp [oversizedDriverCondition]
  · intro hcpu hmem
    simp [sizing_status, hcpu]

/-- Closed instance of `oversized_driver_gating`: a 32-core, 256 GB driver
against thresholds 16 vCPUs / 64 GB violates both predicates and reports
the vCPU label. -/
theorem oversized_driver_gating_witness :
    sizing_status 32 (262144 : ℚ) 16 64 = "🔴 vCPUs Too High" :=
  (oversized_driver_gating 32 (262144 : ℚ) 16 64).2 (by norm_num)
    (by norm_num)

/-- A row of `system.compute.node_timeline`, restricted to the fields read
by the utilization CTEs. -/
structure NodeSample where
  cluster_id : String
  start_time : ℤ
  driver : Bool
  cpu_user_percent : ℚ
  cpu_system_percent : ℚ
deriving DecidableEq, Repr

/-- The rows grouped for cluster `cid` by the `cluster_cpu_stats` CTE of
`high_cpu_photon_query` in `Resource_Utilization_Analysis.py` (lines
187-196): lookback window AND `nt.driver = false`. -/
def workerCpuSamples (tl : List NodeSample) (cid : String)
    (winStart : ℤ) : List NodeSample :=
  tl.filter (fun s =>
    s.cluster_id == cid && decide (winStart ≤ s.start_time)
      && s.driver == false)

/-- The rows grouped for cluster `cid` by the `cluster_cpu_stats` CTE of
`high_cpu_photon_query` in `Cluster_Optimization_Analysis.py` (lines
1007-1015): lookback window only — it has NO `driver = false` filter. -/
def allNodeCpuSamples (tl : List NodeSample) (cid : String)
    (winStart : ℤ) : List NodeSample :=
  tl.filter (fun s =>
    s.cluster_id == cid && decide (winStart ≤ s.start_time))

/-- SQL `AVG` of `cpu_user_percent + cpu_system_percent` over a group;
NULL (no row for the cluster) when the group is empty. -/
def avgCpu (rows : List NodeSample) : Option ℚ :=
  if rows.length = 0 then none
  else some ((rows.map
    (fun s => s.cpu_user_percent + s.cpu_system_percent)).sum / rows.length)

/-- `avg_cpu_percent` of the Resource_Utilization_Analysis variant (worker
nodes only). -/
def avg_cpu_percent_workers (tl : List NodeSample) (cid : String)
    (winStart : ℤ) : Option ℚ :=
  avgCpu (workerCpuSamples tl cid winStart)

/-- `avg_cpu_percent` of the Cluster_Optimization_Analysis variant (all
nodes, the coordinator included). -/
def avg_cpu_percent_all_nodes (tl : List NodeSample) (cid : String)
    (winStart : ℤ) : Option ℚ :=
  avgCpu (allNodeCpuSamples tl cid winStart)

/-- C7 counterexample: on a timeline holding one coordinator sample at 0%
CPU and one worker sample at 100% CPU for the same cluster, the
Photon-candidate average of `Cluster_Optimization_Analysis.py` is 50 — the
coordinator sample is included — while excluding coordinator samples gives
100; so the claim that the coordinator is excluded in both cited queries is
false. -/
theorem photon_candidate_avg_includes_driver :
    avg_cpu_percent_all_nodes
        [⟨"c1", 1, true, 0, 0⟩, ⟨"c1", 1, false, 100, 0⟩] "c1" 0
      = some 50 ∧
    avg_cpu_percent_workers
        [⟨"c1", 1, true, 0, 0⟩, ⟨"c1", 1, false, 100, 0⟩] "c1" 0
      = some 100 ∧
    (50 : ℚ) ≠ 100 := by
  have hall : allNodeCpuSamples
      [⟨"c1", 1, true, 0, 0⟩, ⟨"c1", 1, false, 100, 0⟩] "c1" 0
      = [⟨"c1", 1, true, 0, 0⟩, ⟨"c1", 1, false, 100, 0⟩] := by decide
  have hwork : workerCpuSamples
      [⟨"c1", 1, true, 0, 0⟩, ⟨"c1", 1, false, 100, 0⟩] "c1" 0
      = [⟨"c1", 1, false, 100, 0⟩] := by decide
  refine ⟨?_, ?_, by norm_num⟩
  · rw [avg_cpu_percent_all_nodes, hall]
    norm_num [avgCpu]
  · rw [avg_cpu_percent_workers, hwork]
    norm_num [avgCpu]

/-- C7 amended: the utilization averages of
`Resource_Utilization_Analysis.py` (bottleneck classification and Photon
prioritization) are computed only over non-coordinator samples — adding a
coordinator sample never changes them — whereas the duplicated
Photon-candidate query of `Cluster_Optimization_Analysis.py` omits the
`driver = false` filter and averages over all nodes. -/
theorem worker_avg_ignores_driver_samples (s : NodeSample)
    (tl : List NodeSample) (cid : String) (winStart : ℤ)
    (hdriver : s.driver = true) :
    avg_cpu_percent_workers (s :: tl) cid winStart
      = avg_cpu_percent_workers tl cid winStart := by
  simp [avg_cpu_percent_workers, workerCpuSamples, List.filter_cons, hdriver]

/-- Closed instance of `worker_avg_ignores_driver_samples`: prepending the
0% coordinator sample leaves the worker-only average at 100. -/
theorem worker_avg_ignores_driver_samples_witness :
    avg_cpu_percent_workers
        [⟨"c1", 1, true, 0, 0⟩, ⟨"c1", 1, false, 100, 0⟩] "c1" 0
      = avg_cpu_percent_workers [⟨"c1", 1, false, 100, 0⟩] "c1" 0 :=
  worker_avg_ignores_driver_samples ⟨"c1", 1, true, 0, 0⟩
    [⟨"c1", 1, false, 100, 0⟩] "c1" 0 rfl

/-- A row of `system.compute.clusters`, restricted to the fields used by
`oversized_driver_query` (the workspace filter is the default `1=1`). -/
structure ClusterRow where
  cluster_id : String
  driver_node_type : String
  delete_time : Option ℤ
  change_time : ℤ
deriving DecidableEq, Repr

/-- A row of `system.compute.node_types`. -/
structure NodeTypeRow where
  node_type : String
  core_count : ℤ
  memory_mb : ℚ
deriving DecidableEq, Repr

/-- Cluster activity filter of `oversized_driver_query`:
`delete_time IS NULL AND change_time >= date_sub(current_date,
lookback_days)`. -/
def clusterActive (winStart : ℤ) (c : ClusterRow) : Bool :=
  c.delete_time == none && decide (winStart ≤ c.change_time)

/-- The `JOIN system.compute.node_types nt ON c.driver_node_type =
nt.node_type` lookup (exact match on name; the catalog is keyed by name,
so at most the first hit is relevant). -/
def lookupNodeType (catalog : List NodeTypeRow)
    (name : String) : Option NodeTypeRow :=
  catalog.find? (fun nt => nt.node_type == name)

/-- The result set of `oversized_driver_query` (lines 640-668): active
clusters INNER-joined to the node-type catalog on the driver node type,
kept when the driver exceeds the vCPU or memory threshold.  A cluster
whose driver node type has no catalog entry produces no joined row. -/
def oversizedDriverRows (clusters : List ClusterRow)
    (catalog : List NodeTypeRow) (winStart : ℤ)
    (cpuThreshold : ℤ) (memoryGbThreshold : ℚ) :
    List (ClusterRow × NodeTypeRow) :=
  clusters.filterMap (fun c =>
    match lookupNodeType catalog c.driver_node_type with
    | none => none
    | some nt =>
      if clusterActive winStart c
          && oversizedDriverCondition nt.core_count nt.memory_mb
              cpuThreshold memoryGbThreshold
      then some (c, nt) else none)

/-- `COUNT(DISTINCT c.cluster_id)` of the executive-summary
oversized-driver query (lines 898-908), whose FROM/JOIN/WHERE agree with
`oversized_driver_query`. -/
def oversizedDriverCount (clusters : List ClusterRow)
    (catalog : List NodeTypeRow) (winStart : ℤ)
    (cpuThreshold : ℤ) (memoryGbThreshold : ℚ) : ℕ :=
  ((oversizedDriverRows clusters catalog winStart cpuThreshold
      memoryGbThreshold).map (fun r => r.1.cluster_id)).dedup.length

/-- The GROUP BY key set of `driver_sizing_summary_query` (lines 697-718),
whose FROM/JOIN/WHERE agree with `oversized_driver_query`: the distinct
driver node types of the oversized result set. -/
def driverSizingSummaryGroups (clusters : List ClusterRow)
    (catalog : List NodeTypeRow) (winStart : ℤ)
    (cpuThreshold : ℤ) (memoryGbThreshold : ℚ) : List String :=
  ((oversizedDriverRows clusters catalog winStart cpuThreshold
      memoryGbThreshold).map (fun r => r.1.driver_node_type)).dedup

/-- C9: a cluster whose driver node-type name has no exact-match catalog
entry is dropped by the INNER JOIN: adding it changes neither the
oversized-driver result set, nor the executive-summary count, nor the
driver-sizing summary groups — whatever the thresholds, so it can never be
flagged as oversized. -/
theorem missing_node_type_silently_excluded (clusters : List ClusterRow)
    (catalog : List NodeTypeRow) (c : ClusterRow) (winStart : ℤ)
    (cpuThreshold : ℤ) (memoryGbThreshold : ℚ)
    (h : lookupNodeType catalog c.driver_node_type = none) :
    oversizedDriverRows (c :: clusters) catalog winStart cpuThreshold
        memoryGbThreshold
      = oversizedDriverRows clusters catalog winStart cpuThreshold
        memoryGbThreshold ∧
    oversizedDriverCount (c :: clusters) catalog winStart cpuThreshold
        memoryGbThreshold
      = oversizedDriverCount clusters catalog winStart cpuThreshold
        memoryGbThreshold ∧
    driverSizingSummaryGroups (c :: clusters) catalog winStart cpuThreshold
        memoryGbThreshold
      = driverSizingSummaryGroups clusters catalog winStart cpuThreshold
        memoryGbThreshold := by
  have hrows : oversizedDriverRows (c :: clusters) catalog winStart
      cpuThreshold memoryGbThreshold
      = oversizedDriverRows clusters catalog winStart cpuThreshold
        memoryGbThreshold := by
    simp [oversizedDriverRows, List.filterMap_cons, h]
  exact ⟨hrows, by rw [oversizedDriverCount, hrows, oversizedDriverCount],
    by rw [driverSizingSummaryGroups, hrows, driverSizingSummaryGroups]⟩

/-- Closed instance of `missing_node_type_silently_excluded`: a huge
(64-core) driver whose node-type string is missing from the catalog is
absent from the oversized report even at thresholds 16 vCPUs / 64 GB. -/
theorem missing_node_type_silently_excluded_witness :
    oversizedDriverRows [⟨"c9", "Custom_Huge_v9", none, 5⟩]
        [⟨"Standard_D4s_v5", 4, 16384⟩] 0 16 64
      = oversizedDriverRows [] [⟨"Standard_D4s_v5", 4, 16384⟩] 0 16 64 :=
  (missing_node_type_silently_excluded [] [⟨"Standard_D4s_v5", 4, 16384⟩]
    ⟨"c9", "Custom_Huge_v9", none, 5⟩ 0 16 64 (by decide)).1

/-- The HAVING clause of the `cluster_memory_stats` CTE of
`high_memory_query` (`Resource_Utilization_Analysis.py`, line 438):
`AVG(memory_used_percent) >= 70 OR AVG(swap_used_percent) >= 5`. -/
def high_memory_included (avg_memory_percent avg_swap_percent : ℚ) : Bool :=
  decide (70 ≤ avg_memory_percent) || decide (5 ≤ avg_swap_percent)

/-- C10: the high-memory detail report and the summary's bottleneck
classifier use different memory thresholds — any profile with average
memory in [70, 80) and average swap below 5 enters the high-memory report
yet is not classified Memory-bound by `bottleneck_type`. -/
theorem high_memory_threshold_divergence (s : UtilStats)
    (hlo : 70 ≤ s.avg_memory_percent) (hhi : s.avg_memory_percent < 80)
    (hswap : s.avg_swap_percent < 5) :
    high_memory_included s.avg_memory_percent s.avg_swap_percent = true ∧
    bottleneck_type s ≠ "Memory-bound" := by
  constructor
  · simp [high_memory_included]
    left
    exact hlo
  · have hcond : ¬(5 ≤ s.avg_swap_percent ∨ 80 ≤ s.avg_memory_percent) := by
      push_neg
      exact ⟨hswap, hhi⟩
    unfold bottleneck_type
    rw [if_neg hcond]
    split_ifs <;> simp

/-- Closed instance of `high_memory_threshold_divergence` at memory 75%,
swap 0%: included in the high-memory report, not Memory-bound. -/
theorem high_memory_threshold_divergence_witness :
    high_memory_included (UtilStats.avg_memory_percent ⟨0, 0, 75, 0⟩)
        (UtilStats.avg_swap_percent ⟨0, 0, 75, 0⟩) = true ∧
    bottleneck_type ⟨0, 0, 75, 0⟩ ≠ "Memory-bound" :=
  high_memory_threshold_divergence ⟨0, 0, 75, 0⟩ (by norm_num) (by norm_num)
    (by norm_num)
